import Mathlib

/-!
Shallow embedding of the simulation core of `src/script.js`
(a Mario-style 2D platformer).

JavaScript numbers are modelled as rationals (`ℚ`); every arithmetic
operation of the source (addition, multiplication by the constants 0.5,
0.8, 0.4, comparisons, `Math.max` / `Math.min` / `Math.abs`) is exact on
the values involved, so `ℚ` is a faithful carrier.

The canvas dimensions (`canvas.width`, `canvas.height`) come from the
HTML page, which is not part of the source tree; they are parameters
(`cw`, `ch`) throughout.  `Math.random()` (used only by the decorative
background clouds) is modelled as an oracle argument.
-/

namespace Platformer

/-- Key state record `keys = {left, right, up}` (script.js lines 72-76). -/
structure Keys where
  left : Bool
  right : Bool
  up : Bool
deriving DecidableEq, Repr

/-- An axis-aligned rectangle `{x, y, w, h}` as used for ground tiles and
floating platforms (script.js lines 103-120). -/
structure Rect where
  x : ℚ
  y : ℚ
  w : ℚ
  h : ℚ
deriving DecidableEq, Repr

/-- Player state: fields of the `Player` class constructor
(script.js lines 141-150), without the fixed `walkFrameInterval` (a
constant, 100). -/
structure PlayerState where
  x : ℚ
  y : ℚ
  velX : ℚ
  velY : ℚ
  onGround : Bool
  walkFrameIndex : ℕ
  walkFrameTimer : ℚ
deriving DecidableEq, Repr

/-- A coin `{x, y, collected}` (script.js line 135). -/
structure Coin where
  x : ℚ
  y : ℚ
  collected : Bool
deriving DecidableEq, Repr

/-- A background cloud `{x, y, speed}` (script.js lines 22-26). -/
structure Cloud where
  x : ℚ
  y : ℚ
  speed : ℚ
deriving DecidableEq, Repr

/-- `WORLD_WIDTH = 2800` (script.js line 55). -/
def WORLD_WIDTH : ℚ := 2800

/-- `GRAVITY = 0.4` (script.js line 59). -/
def GRAVITY : ℚ := 2/5

/-- `FRICTION = 0.8` (script.js line 60). -/
def FRICTION : ℚ := 4/5

/-- `MAX_VEL_X = 6` (script.js line 61). -/
def MAX_VEL_X : ℚ := 6

/-- `JUMP_VELOCITY = -12` (script.js line 62). -/
def JUMP_VELOCITY : ℚ := -12

/-- `PLAYER_WIDTH = 50` (script.js line 65). -/
def PLAYER_WIDTH : ℚ := 50

/-- `PLAYER_HEIGHT = 70` (script.js line 66). -/
def PLAYER_HEIGHT : ℚ := 70

/-- `COIN_SIZE = 32` (script.js line 69). -/
def COIN_SIZE : ℚ := 32

/-- The friction branch of the horizontal-movement step
(script.js lines 159-160): `velX *= FRICTION; if |velX| < 0.1 then velX = 0`. -/
def frictionStep (v : ℚ) : ℚ :=
  if |v * FRICTION| < 1/10 then 0 else v * FRICTION

/-- Horizontal movement (script.js lines 152-161): left has priority, then
right, else friction with snap-to-zero below 0.1. -/
def horizontalStep (k : Keys) (v : ℚ) : ℚ :=
  if k.left then max (v - 1/2) (-MAX_VEL_X)
  else if k.right then min (v + 1/2) MAX_VEL_X
  else frictionStep v

/-- Phase 1 of `Player.update`: replace `velX` by the horizontal step. -/
def hPhase (k : Keys) (p : PlayerState) : PlayerState :=
  { p with velX := horizontalStep k p.velX }

/-- Phase 2, jumping (script.js lines 163-167): if `up` held and on ground,
set `velY = JUMP_VELOCITY` and clear `onGround`. -/
def jumpStep (k : Keys) (p : PlayerState) : PlayerState :=
  if k.up ∧ p.onGround then { p with velY := JUMP_VELOCITY, onGround := false }
  else p

/-- Phase 3, gravity (script.js line 170): `velY += GRAVITY`, unconditional. -/
def gravPhase (p : PlayerState) : PlayerState :=
  { p with velY := p.velY + GRAVITY }

/-- Phase 4, position integration (script.js lines 172-173):
`x += velX; y += velY`. -/
def movePhase (p : PlayerState) : PlayerState :=
  { p with x := p.x + p.velX, y := p.y + p.velY }

/-- Horizontal world clamp (script.js line 176):
`x = max(0, min(x, WORLD_WIDTH - PLAYER_WIDTH))`. -/
def clampX (x : ℚ) : ℚ :=
  max 0 (min x (WORLD_WIDTH - PLAYER_WIDTH))

/-- Phase 5: apply `clampX` to the x coordinate. -/
def clampPhase (p : PlayerState) : PlayerState :=
  { p with x := clampX p.x }

/-- The AABB platform-collision test of script.js lines 184-190: horizontal
overlap, the player's bottom edge strictly between platform top and bottom,
and `velY >= 0`. -/
def platHit (pl : Rect) (p : PlayerState) : Prop :=
  p.x + PLAYER_WIDTH > pl.x ∧ p.x < pl.x + pl.w ∧
  p.y + PLAYER_HEIGHT > pl.y ∧ p.y + PLAYER_HEIGHT < pl.y + pl.h ∧
  p.velY ≥ 0

instance (pl : Rect) (p : PlayerState) : Decidable (platHit pl p) :=
  inferInstanceAs (Decidable (_ ∧ _ ∧ _ ∧ _ ∧ _))

/-- Body of the platform loop (script.js lines 191-195): on a hit, snap to
the platform top, zero `velY`, set `onGround`. -/
def resolvePlat (p : PlayerState) (pl : Rect) : PlayerState :=
  if platHit pl p then { p with y := pl.y - PLAYER_HEIGHT, velY := 0, onGround := true }
  else p

/-- Phase 6, collision resolution (script.js lines 179-196): reset
`onGround` to false, then fold the resolution body over all platforms in
order. -/
def collidePhase (plats : List Rect) (p : PlayerState) : PlayerState :=
  List.foldl resolvePlat { p with onGround := false } plats

/-- Phase 7, floor safety net (script.js lines 198-203): if below the
world floor, force the player onto it. -/
def floorPhase (ch : ℚ) (p : PlayerState) : PlayerState :=
  if p.y + PLAYER_HEIGHT > ch then
    { p with y := ch - PLAYER_HEIGHT, velY := 0, onGround := true }
  else p

/-- Phase 8, walk animation (script.js lines 205-216). -/
def animPhase (dt : ℚ) (p : PlayerState) : PlayerState :=
  if |p.velX| > 1/10 ∧ p.onGround then
    if p.walkFrameTimer + dt > 100 then
      { p with walkFrameTimer := 0,
               walkFrameIndex := if p.walkFrameIndex + 1 > 11 then 1 else p.walkFrameIndex + 1 }
    else { p with walkFrameTimer := p.walkFrameTimer + dt }
  else { p with walkFrameIndex := 1, walkFrameTimer := 0 }

/-- The state of `Player.update` just before the floor safety net:
phases 1-6 composed in source order. -/
def preFloor (k : Keys) (plats : List Rect) (p : PlayerState) : PlayerState :=
  collidePhase plats (clampPhase (movePhase (gravPhase (jumpStep k (hPhase k p)))))

/-- `Player.update(dt)` (script.js lines 151-217): all eight phases in
source order.  `plats` is the platform list the loop iterates over,
`ch` is `canvas.height`. -/
def playerUpdate (k : Keys) (dt : ℚ) (plats : List Rect) (ch : ℚ) (p : PlayerState) : PlayerState :=
  animPhase dt (floorPhase ch (preFloor k plats p))

/-- Ground tiles (script.js lines 103-111): `ceil(2800 / 70) = 40` tiles of
70 by 70 along the world floor. -/
def groundTiles (ch : ℚ) : List Rect :=
  (List.range 40).map fun i => ⟨70 * i, ch - 70, 70, 70⟩

/-- The five floating platforms (script.js lines 114-120). -/
def floatingPlatforms (ch : ℚ) : List Rect :=
  [⟨300, ch - 200, 140, 40⟩, ⟨600, ch - 300, 140, 40⟩, ⟨1000, ch - 250, 140, 40⟩,
   ⟨1500, ch - 180, 140, 40⟩, ⟨2000, ch - 220, 140, 40⟩]

/-- `groundTiles.concat(floatingPlatforms)` (script.js line 181). -/
def worldPlatforms (ch : ℚ) : List Rect :=
  groundTiles ch ++ floatingPlatforms ch

/-- Camera mapping (script.js lines 360-362):
`cameraX = max(0, min(WORLD_WIDTH - cw, x + PLAYER_WIDTH/2 - cw/2))`. -/
def cameraOffset (cw : ℚ) (px : ℚ) : ℚ :=
  max 0 (min (WORLD_WIDTH - cw) (px + PLAYER_WIDTH / 2 - cw / 2))

/-- Player-coin AABB overlap test (script.js lines 368-373): strict overlap
of both ranges. -/
def coinHit (p : PlayerState) (c : Coin) : Prop :=
  p.x < c.x + COIN_SIZE ∧ p.x + PLAYER_WIDTH > c.x ∧
  p.y < c.y + COIN_SIZE ∧ p.y + PLAYER_HEIGHT > c.y

instance (p : PlayerState) (c : Coin) : Decidable (coinHit p c) :=
  inferInstanceAs (Decidable (_ ∧ _ ∧ _ ∧ _))

/-- The coin loop of `update` (script.js lines 363-378): for each coin in
order, if not yet collected and overlapping the player, mark it collected
and increment the score.  Returns the updated coin list and score. -/
def coinsPhase (p : PlayerState) : List Coin → ℕ → List Coin × ℕ
  | [], sc => ([], sc)
  | c :: rest, sc =>
      if c.collected = false ∧ coinHit p c then
        ({ c with collected := true } :: (coinsPhase p rest (sc + 1)).1,
         (coinsPhase p rest (sc + 1)).2)
      else
        (c :: (coinsPhase p rest sc).1, (coinsPhase p rest sc).2)

/-- One cloud step (script.js lines 385-391): drift right by
`speed * dt/16`; on leaving the right edge, wrap to `x = -150` with a fresh
`Math.random()`-based height, modelled by the oracle value `r`. -/
def cloudStep (cw ch dt r : ℚ) (c : Cloud) : Cloud :=
  if c.x + c.speed * (dt / 16) - 100 > cw then
    { c with x := -150, y := r * ch * (2/5) }
  else
    { c with x := c.x + c.speed * (dt / 16) }

/-- The cloud loop of `update` (script.js lines 385-391); `rand i` models
the `Math.random()` draw available to the i-th cloud. -/
def cloudsPhase (cw ch dt : ℚ) (rand : ℕ → ℚ) (cs : List Cloud) : List Cloud :=
  cs.mapIdx fun i c => cloudStep cw ch dt (rand i) c

/-- Whole-game mutable state touched by `update`: player, camera, coins,
score and the background clouds. -/
structure GameState where
  player : PlayerState
  cameraX : ℚ
  coins : List Coin
  score : ℕ
  clouds : List Cloud
deriving DecidableEq, Repr

/-- `update(dt)` (script.js lines 356-392): player physics, camera
follow, coin collection, cloud drift, in source order.  `cw`/`ch` are the
canvas dimensions, `rand` the `Math.random()` oracle for this tick. -/
def update (cw ch : ℚ) (rand : ℕ → ℚ) (k : Keys) (dt : ℚ) (s : GameState) : GameState :=
  let p := playerUpdate k dt (worldPlatforms ch) ch s.player
  { player := p,
    cameraX := cameraOffset cw p.x,
    coins := (coinsPhase p s.coins s.score).1,
    score := (coinsPhase p s.coins s.score).2,
    clouds := cloudsPhase cw ch dt rand s.clouds }

/-- Iterated ticks from tick index `n`: each element of `inputs` is one
`(dt, intent)` pair; `rand t i` is the `Math.random()` oracle of tick `t`. -/
def runFrom (cw ch : ℚ) (rand : ℕ → ℕ → ℚ) : ℕ → List (ℚ × Keys) → GameState → GameState
  | _, [], s => s
  | n, (dt, k) :: rest, s => runFrom cw ch rand (n + 1) rest (update cw ch (rand n) k dt s)

/-- A run of the game loop over a `(dt, intent)` sequence. -/
def run (cw ch : ℚ) (rand : ℕ → ℕ → ℚ) (inputs : List (ℚ × Keys)) (s : GameState) : GameState :=
  runFrom cw ch rand 0 inputs s

/-- The simulation-core projection of the game state: everything `update`
maintains except the decorative clouds. -/
def coreOf (s : GameState) : PlayerState × ℚ × List Coin × ℕ :=
  (s.player, s.cameraX, s.coins, s.score)

/-- Coin `i` exists and is collected. -/
def collectedAt (s : GameState) (i : ℕ) : Prop :=
  ∃ c, s.coins.get? i = some c ∧ c.collected = true

/-- The all-false intent record. -/
def noKeys : Keys := ⟨false, false, false⟩

/-! Projection lemmas: which fields each phase of `Player.update` touches. -/

@[simp] lemma hPhase_x (k : Keys) (p : PlayerState) : (hPhase k p).x = p.x := rfl

@[simp] lemma hPhase_y (k : Keys) (p : PlayerState) : (hPhase k p).y = p.y := rfl

@[simp] lemma hPhase_velX (k : Keys) (p : PlayerState) :
    (hPhase k p).velX = horizontalStep k p.velX := rfl

@[simp] lemma hPhase_velY (k : Keys) (p : PlayerState) : (hPhase k p).velY = p.velY := rfl

@[simp] lemma hPhase_onGround (k : Keys) (p : PlayerState) :
    (hPhase k p).onGround = p.onGround := rfl

@[simp] lemma jumpStep_x (k : Keys) (p : PlayerState) : (jumpStep k p).x = p.x := by
  unfold jumpStep
  split <;> rfl

@[simp] lemma jumpStep_y (k : Keys) (p : PlayerState) : (jumpStep k p).y = p.y := by
  unfold jumpStep
  split <;> rfl

@[simp] lemma jumpStep_velX (k : Keys) (p : PlayerState) : (jumpStep k p).velX = p.velX := by
  unfold jumpStep
  split <;> rfl

@[simp] lemma gravPhase_x (p : PlayerState) : (gravPhase p).x = p.x := rfl

@[simp] lemma gravPhase_y (p : PlayerState) : (gravPhase p).y = p.y := rfl

@[simp] lemma gravPhase_velX (p : PlayerState) : (gravPhase p).velX = p.velX := rfl

@[simp] lemma gravPhase_velY (p : PlayerState) : (gravPhase p).velY = p.velY + GRAVITY := rfl

@[simp] lemma gravPhase_onGround (p : PlayerState) : (gravPhase p).onGround = p.onGround := rfl

@[simp] lemma movePhase_x (p : PlayerState) : (movePhase p).x = p.x + p.velX := rfl

@[simp] lemma movePhase_y (p : PlayerState) : (movePhase p).y = p.y + p.velY := rfl

@[simp] lemma movePhase_velX (p : PlayerState) : (movePhase p).velX = p.velX := rfl

@[simp] lemma movePhase_velY (p : PlayerState) : (movePhase p).velY = p.velY := rfl

@[simp] lemma movePhase_onGround (p : PlayerState) : (movePhase p).onGround = p.onGround := rfl

@[simp] lemma clampPhase_x (p : PlayerState) : (clampPhase p).x = clampX p.x := rfl

@[simp] lemma clampPhase_y (p : PlayerState) : (clampPhase p).y = p.y := rfl

@[simp] lemma clampPhase_velX (p : PlayerState) : (clampPhase p).velX = p.velX := rfl

@[simp] lemma clampPhase_velY (p : PlayerState) : (clampPhase p).velY = p.velY := rfl

@[simp] lemma clampPhase_onGround (p : PlayerState) : (clampPhase p).onGround = p.onGround := rfl

@[simp] lemma resolvePlat_x (p : PlayerState) (pl : Rect) : (resolvePlat p pl).x = p.x := by
  unfold resolvePlat
  split <;> rfl

@[simp] lemma resolvePlat_velX (p : PlayerState) (pl : Rect) :
    (resolvePlat p pl).velX = p.velX := by
  unfold resolvePlat
  split <;> rfl

lemma foldl_resolvePlat_x (plats : List Rect) :
    ∀ p : PlayerState, (List.foldl resolvePlat p plats).x = p.x := by
  induction plats with
  | nil => intro p; rfl
  | cons pl rest ih =>
    intro p
    rw [List.foldl_cons, ih, resolvePlat_x]

lemma foldl_resolvePlat_velX (plats : List Rect) :
    ∀ p : PlayerState, (List.foldl resolvePlat p plats).velX = p.velX := by
  induction plats with
  | nil => intro p; rfl
  | cons pl rest ih =>
    intro p
    rw [List.foldl_cons, ih, resolvePlat_velX]

@[simp] lemma collidePhase_x (plats : List Rect) (p : PlayerState) :
    (collidePhase plats p).x = p.x := by
  unfold collidePhase
  rw [foldl_resolvePlat_x]

@[simp] lemma collidePhase_velX (plats : List Rect) (p : PlayerState) :
    (collidePhase plats p).velX = p.velX := by
  unfold collidePhase
  rw [foldl_resolvePlat_velX]

@[simp] lemma floorPhase_x (ch : ℚ) (p : PlayerState) : (floorPhase ch p).x = p.x := by
  unfold floorPhase
  split <;> rfl

@[simp] lemma floorPhase_velX (ch : ℚ) (p : PlayerState) : (floorPhase ch p).velX = p.velX := by
  unfold floorPhase
  split <;> rfl

@[simp] lemma animPhase_x (dt : ℚ) (p : PlayerState) : (animPhase dt p).x = p.x := by
  unfold animPhase
  split
  · split <;> rfl
  · rfl

@[simp] lemma animPhase_y (dt : ℚ) (p : PlayerState) : (animPhase dt p).y = p.y := by
  unfold animPhase
  split
  · split <;> rfl
  · rfl

@[simp] lemma animPhase_velX (dt : ℚ) (p : PlayerState) : (animPhase dt p).velX = p.velX := by
  unfold animPhase
  split
  · split <;> rfl
  · rfl

@[simp] lemma animPhase_velY (dt : ℚ) (p : PlayerState) : (animPhase dt p).velY = p.velY := by
  unfold animPhase
  split
  · split <;> rfl
  · rfl

@[simp] lemma animPhase_onGround (dt : ℚ) (p : PlayerState) :
    (animPhase dt p).onGround = p.onGround := by
  unfold animPhase
  split
  · split <;> rfl
  · rfl

/-- While the vertical velocity is negative, no platform test of the
collision loop fires, so the fold is the identity. -/
lemma foldl_resolvePlat_of_velY_neg (plats : List Rect) :
    ∀ p : PlayerState, p.velY < 0 → List.foldl resolvePlat p plats = p := by
  induction plats with
  | nil => intro p _; rfl
  | cons pl rest ih =>
    intro p h
    have hr : resolvePlat p pl = p := by
      unfold resolvePlat
      rw [if_neg]
      intro hh
      exact absurd hh.2.2.2.2 (not_le.mpr h)
    rw [List.foldl_cons, hr, ih p h]

/-- The whole collision phase, while ascending, only clears `onGround`. -/
lemma collidePhase_of_velY_neg (plats : List Rect) (p : PlayerState) (h : p.velY < 0) :
    collidePhase plats p = { p with onGround := false } := by
  unfold collidePhase
  exact foldl_resolvePlat_of_velY_neg plats _ h

/-- Whatever the intent, the horizontal step keeps a clamped velocity
clamped. -/
lemma horizontalStep_bounds (k : Keys) (v : ℚ) (h1 : -MAX_VEL_X ≤ v) (h2 : v ≤ MAX_VEL_X) :
    -MAX_VEL_X ≤ horizontalStep k v ∧ horizontalStep k v ≤ MAX_VEL_X := by
  unfold horizontalStep frictionStep
  unfold MAX_VEL_X at *
  unfold FRICTION
  split
  · exact ⟨le_max_right _ _, max_le (by linarith) (by norm_num)⟩
  · split
    · exact ⟨le_min (by linarith) (by norm_num), min_le_right _ _⟩
    · split
      · exact ⟨by norm_num, by norm_num⟩
      · exact ⟨by linarith, by linarith⟩

/-- The horizontal world clamp always lands in `[0, WORLD_WIDTH - PLAYER_WIDTH]`. -/
lemma clampX_bounds (x : ℚ) : 0 ≤ clampX x ∧ clampX x ≤ WORLD_WIDTH - PLAYER_WIDTH := by
  unfold clampX WORLD_WIDTH PLAYER_WIDTH
  exact ⟨le_max_left _ _, max_le (by norm_num) (le_trans (min_le_right _ _) (by norm_num))⟩

/-- The camera clamp always lands in `[0, WORLD_WIDTH - cw]` as long as the
viewport is no wider than the world. -/
lemma cameraOffset_bounds (cw px : ℚ) (h : cw ≤ WORLD_WIDTH) :
    0 ≤ cameraOffset cw px ∧ cameraOffset cw px ≤ WORLD_WIDTH - cw := by
  unfold cameraOffset
  exact ⟨le_max_left _ _, max_le (by linarith) (min_le_left _ _)⟩

/-- The horizontal velocity produced by a whole tick is exactly the value
the horizontal step computed; no later phase touches it. -/
lemma playerUpdate_velX (k : Keys) (dt : ℚ) (plats : List Rect) (ch : ℚ) (p : PlayerState) :
    (playerUpdate k dt plats ch p).velX = horizontalStep k p.velX := by
  simp [playerUpdate, preFloor]

/-- The x coordinate produced by a whole tick is the clamped integrated
position; no phase after the clamp touches it. -/
lemma playerUpdate_x (k : Keys) (dt : ℚ) (plats : List Rect) (ch : ℚ) (p : PlayerState) :
    (playerUpdate k dt plats ch p).x = clampX (p.x + horizontalStep k p.velX) := by
  simp [playerUpdate, preFloor]

/-- The collision fold maintains the invariant `onGround = true → velY = 0`. -/
lemma foldl_resolvePlat_ground (plats : List Rect) :
    ∀ p : PlayerState, (p.onGround = true → p.velY = 0) →
      (List.foldl resolvePlat p plats).onGround = true →
      (List.foldl resolvePlat p plats).velY = 0 := by
  induction plats with
  | nil => intro p h; exact h
  | cons pl rest ih =>
    intro p h
    rw [List.foldl_cons]
    refine ih (resolvePlat p pl) ?_
    unfold resolvePlat
    split
    · intro _; rfl
    · exact h

/-- The coin loop never decreases the score. -/
lemma coinsPhase_score_le (p : PlayerState) :
    ∀ (cs : List Coin) (sc : ℕ), sc ≤ (coinsPhase p cs sc).2 := by
  intro cs
  induction cs with
  | nil => intro sc; exact le_refl sc
  | cons c rest ih =>
    intro sc
    unfold coinsPhase
    split
    · exact le_trans (Nat.le_succ sc) (ih (sc + 1))
    · exact ih sc

/-- The coin loop never clears a `collected` flag. -/
lemma coinsPhase_preserves_collected (p : PlayerState) :
    ∀ (cs : List Coin) (sc i : ℕ) (c : Coin), cs.get? i = some c → c.collected = true →
      ∃ d, (coinsPhase p cs sc).1.get? i = some d ∧ d.collected = true := by
  intro cs
  induction cs with
  | nil =>
    intro sc i c h _
    simp [List.get?] at h
  | cons c0 rest ih =>
    intro sc i c h hc
    cases i with
    | zero =>
      rw [List.get?_cons_zero, Option.some.injEq] at h
      unfold coinsPhase
      split_ifs with hcond
      · exact absurd (h ▸ hc) (by rw [hcond.1]; exact Bool.false_ne_true)
      · exact ⟨c0, List.get?_cons_zero, h ▸ hc⟩
    | succ j =>
      rw [List.get?_cons_succ] at h
      unfold coinsPhase
      split_ifs
      · obtain ⟨d, hd1, hd2⟩ := ih (sc + 1) j c h hc
        exact ⟨d, by rw [List.get?_cons_succ]; exact hd1, hd2⟩
      · obtain ⟨d, hd1, hd2⟩ := ih sc j c h hc
        exact ⟨d, by rw [List.get?_cons_succ]; exact hd1, hd2⟩

/-- One tick never decreases the score. -/
lemma update_score_le (cw ch : ℚ) (rand : ℕ → ℚ) (k : Keys) (dt : ℚ) (s : GameState) :
    s.score ≤ (update cw ch rand k dt s).score :=
  coinsPhase_score_le _ s.coins s.score

/-- One tick never clears a coin's `collected` flag. -/
lemma update_collected (cw ch : ℚ) (rand : ℕ → ℚ) (k : Keys) (dt : ℚ) (s : GameState)
    (i : ℕ) (h : collectedAt s i) : collectedAt (update cw ch rand k dt s) i := by
  obtain ⟨c, h1, h2⟩ := h
  obtain ⟨d, hd1, hd2⟩ := coinsPhase_preserves_collected _ s.coins s.score i c h1 h2
  exact ⟨d, hd1, hd2⟩

/-- The core of one tick does not depend on the random oracle and reads
only the core of the previous state. -/
lemma update_coreOf_eq (cw ch : ℚ) (ra rb : ℕ → ℚ) (k : Keys) (dt : ℚ) (s1 s2 : GameState)
    (h : coreOf s1 = coreOf s2) : coreOf (update cw ch ra k dt s1) = coreOf (update cw ch rb k dt s2) := by
  unfold coreOf at h ⊢
  simp only [Prod.mk.injEq] at h ⊢
  obtain ⟨h1, _, h3, h4⟩ := h
  unfold update
  simp [h1, h3, h4]

/-! Sample inputs used by the witnesses. -/

/-- A player standing on a surface within the world. -/
def samplePlayer : PlayerState := ⟨100, 340, 0, 0, true, 1, 0⟩

/-- A player far below the world floor (exercises the safety net). -/
def sampleDeepPlayer : PlayerState := ⟨100, 1000, 0, 0, false, 1, 0⟩

/-- A player moving upward through a platform's band. -/
def ascendPlayer : PlayerState := ⟨100, -50, 0, -5, false, 1, 0⟩

/-- A wide platform whose vertical band contains `ascendPlayer`'s feet. -/
def ascendPlat : Rect := ⟨0, 0, 2800, 70⟩

/-- The jump-held intent record. -/
def upKeys : Keys := ⟨false, false, true⟩

/-- A game state with one collected coin and one cloud about to wrap. -/
def sampleState : GameState :=
  { player := samplePlayer, cameraX := 0, coins := [⟨120, 350, true⟩], score := 1,
    clouds := [⟨901, 0, 1⟩] }

/-! The claims. -/

/-- C3: on every tick the camera offset is recomputed as
`clamp(playerCenterX - cw/2, 0, WORLD_WIDTH - cw)` from the freshly updated
player position alone (no internal camera state is read), and consequently
it lies in `[0, WORLD_WIDTH - cw]`, provided the viewport is no wider than
the world (the canvas width is a page constant outside the source tree). -/
theorem camera_recomputed_and_bounded (cw ch : ℚ) (rand : ℕ → ℚ) (k : Keys) (dt : ℚ)
    (s : GameState) (h : cw ≤ WORLD_WIDTH) :
    (update cw ch rand k dt s).cameraX
      = cameraOffset cw (playerUpdate k dt (worldPlatforms ch) ch s.player).x
    ∧ 0 ≤ (update cw ch rand k dt s).cameraX
    ∧ (update cw ch rand k dt s).cameraX ≤ WORLD_WIDTH - cw := by
  have hc : (update cw ch rand k dt s).cameraX
      = cameraOffset cw (playerUpdate k dt (worldPlatforms ch) ch s.player).x := rfl
  refine ⟨hc, ?_, ?_⟩
  · rw [hc]
    exact (cameraOffset_bounds _ _ h).1
  · rw [hc]
    exact (cameraOffset_bounds _ _ h).2

/-- Witness for C3 at a concrete 800-wide viewport and state. -/
theorem camera_recomputed_and_bounded_witness :
    (800 : ℚ) ≤ WORLD_WIDTH
    ∧ ((update 800 480 (fun _ => 0) noKeys 0 sampleState).cameraX
        = cameraOffset 800 (playerUpdate noKeys 0 (worldPlatforms 480) 480 sampleState.player).x
       ∧ 0 ≤ (update 800 480 (fun _ => 0) noKeys 0 sampleState).cameraX
       ∧ (update 800 480 (fun _ => 0) noKeys 0 sampleState).cameraX ≤ WORLD_WIDTH - 800) :=
  ⟨by norm_num [WORLD_WIDTH],
   camera_recomputed_and_bounded 800 480 (fun _ => 0) noKeys 0 sampleState
     (by norm_num [WORLD_WIDTH])⟩

/-- C4: if `velX` lies in `[-MAX_VEL_X, MAX_VEL_X]` before a tick, it lies
in that interval after the tick, for every intent. -/
theorem velX_clamp_invariant (k : Keys) (dt : ℚ) (plats : List Rect) (ch : ℚ)
    (p : PlayerState) (h1 : -MAX_VEL_X ≤ p.velX) (h2 : p.velX ≤ MAX_VEL_X) :
    -MAX_VEL_X ≤ (playerUpdate k dt plats ch p).velX
    ∧ (playerUpdate k dt plats ch p).velX ≤ MAX_VEL_X := by
  rw [playerUpdate_velX]
  exact horizontalStep_bounds k p.velX h1 h2

/-- Witness for C4 at a concrete standing player. -/
theorem velX_clamp_invariant_witness :
    -MAX_VEL_X ≤ samplePlayer.velX ∧ samplePlayer.velX ≤ MAX_VEL_X
    ∧ (-MAX_VEL_X ≤ (playerUpdate noKeys 0 [] 480 samplePlayer).velX
       ∧ (playerUpdate noKeys 0 [] 480 samplePlayer).velX ≤ MAX_VEL_X) :=
  ⟨by norm_num [samplePlayer, MAX_VEL_X], by norm_num [samplePlayer, MAX_VEL_X],
   velX_clamp_invariant noKeys 0 [] 480 samplePlayer
     (by norm_num [samplePlayer, MAX_VEL_X]) (by norm_num [samplePlayer, MAX_VEL_X])⟩

/-- C5: after every tick `x` lies in `[0, WORLD_WIDTH - PLAYER_WIDTH]`; the
clamp is a hard wall applied to the integrated position, and the horizontal
velocity that leaves the tick is exactly the one phase 1 computed (the
clamp does not alter it). -/
theorem x_world_bound_hard_wall (k : Keys) (dt : ℚ) (plats : List Rect) (ch : ℚ)
    (p : PlayerState) :
    0 ≤ (playerUpdate k dt plats ch p).x
    ∧ (playerUpdate k dt plats ch p).x ≤ WORLD_WIDTH - PLAYER_WIDTH
    ∧ (playerUpdate k dt plats ch p).x = clampX (p.x + horizontalStep k p.velX)
    ∧ (playerUpdate k dt plats ch p).velX = horizontalStep k p.velX := by
  have hx := playerUpdate_x k dt plats ch p
  refine ⟨?_, ?_, hx, playerUpdate_velX k dt plats ch p⟩
  · rw [hx]
    exact (clampX_bounds _).1
  · rw [hx]
    exact (clampX_bounds _).2

/-- C9: while the player is moving upward (`velY < 0`) the collision
resolution fires for no platform: position and velocity are untouched and
`onGround` is only given its unconditional reset to false. -/
theorem ascending_passes_through_platforms (plats : List Rect) (p : PlayerState)
    (h : p.velY < 0) : collidePhase plats p = { p with onGround := false } :=
  collidePhase_of_velY_neg plats p h

/-- Witness for C9: an ascending player inside a platform's vertical band
is not snapped. -/
theorem ascending_passes_through_platforms_witness :
    ascendPlayer.velY < 0
    ∧ collidePhase [ascendPlat] ascendPlayer = { ascendPlayer with onGround := false } :=
  ⟨by norm_num [ascendPlayer],
   ascending_passes_through_platforms [ascendPlat] ascendPlayer (by norm_num [ascendPlayer])⟩

/-- C10: after any tick, `onGround = true` implies `velY = 0`: the flag is
only ever set together with zeroing the vertical velocity, by a platform
snap or by the floor safety net. -/
theorem onGround_implies_velY_zero (k : Keys) (dt : ℚ) (plats : List Rect) (ch : ℚ)
    (p : PlayerState) (h : (playerUpdate k dt plats ch p).onGround = true) :
    (playerUpdate k dt plats ch p).velY = 0 := by
  unfold playerUpdate at h ⊢
  rw [animPhase_onGround] at h
  rw [animPhase_velY]
  unfold floorPhase at h ⊢
  split_ifs at h ⊢ with hc
  · rfl
  · unfold preFloor collidePhase at h ⊢
    exact foldl_resolvePlat_ground plats _ (fun hf => absurd hf Bool.false_ne_true) h

/-- Witness for C10: a player caught by the floor safety net ends the tick
grounded with zero vertical velocity. -/
theorem onGround_implies_velY_zero_witness :
    (playerUpdate noKeys 0 [] 480 sampleDeepPlayer).onGround = true
    ∧ (playerUpdate noKeys 0 [] 480 sampleDeepPlayer).velY = 0 := by
  have h : (playerUpdate noKeys 0 [] 480 sampleDeepPlayer).onGround = true := by
    norm_num [playerUpdate, preFloor, collidePhase, List.foldl, clampPhase, movePhase,
      gravPhase, jumpStep, hPhase, horizontalStep, frictionStep, floorPhase, animPhase,
      sampleDeepPlayer, noKeys, clampX, GRAVITY, FRICTION, MAX_VEL_X, JUMP_VELOCITY,
      PLAYER_WIDTH, PLAYER_HEIGHT, WORLD_WIDTH]
  exact ⟨h, onGround_implies_velY_zero noKeys 0 [] 480 sampleDeepPlayer h⟩

/-- C1 counterexample: a standing player who jumps does not end the tick
with `velY = JUMP_VELOCITY`; gravity has already been added, so the claim
as stated is false. -/
theorem jump_tick_velY_counterexample :
    ¬ ((playerUpdate upKeys 0 [] 480 samplePlayer).velY = JUMP_VELOCITY
       ∧ (playerUpdate upKeys 0 [] 480 samplePlayer).onGround = false) := by
  intro h
  have he : (playerUpdate upKeys 0 [] 480 samplePlayer).velY = -58/5 := by
    norm_num [playerUpdate, preFloor, collidePhase, List.foldl, clampPhase, movePhase,
      gravPhase, jumpStep, hPhase, horizontalStep, frictionStep, floorPhase, animPhase,
      samplePlayer, upKeys, clampX, GRAVITY, FRICTION, MAX_VEL_X, JUMP_VELOCITY,
      PLAYER_WIDTH, PLAYER_HEIGHT, WORLD_WIDTH]
  have hv := h.1
  rw [he] at hv
  norm_num [JUMP_VELOCITY] at hv

/-- C1 (amended): if `jump` is held and `onGround` is true at the start of
a tick (with the player within the floor bound), then after the tick
`velY = JUMP_VELOCITY + GRAVITY` (the jump sets `velY = JUMP_VELOCITY`, and
the unconditional gravity of the same tick then adds `GRAVITY`) and
`onGround` is false. -/
theorem jump_applies_jump_velocity_then_gravity (k : Keys) (dt : ℚ) (plats : List Rect)
    (ch : ℚ) (p : PlayerState) (hup : k.up = true) (hg : p.onGround = true)
    (hy : p.y + PLAYER_HEIGHT ≤ ch) :
    (playerUpdate k dt plats ch p).velY = JUMP_VELOCITY + GRAVITY
    ∧ (playerUpdate k dt plats ch p).onGround = false := by
  have hj : jumpStep k (hPhase k p)
      = { hPhase k p with velY := JUMP_VELOCITY, onGround := false } := by
    unfold jumpStep
    rw [if_pos]
    exact ⟨hup, hg⟩
  have hvelY : (clampPhase (movePhase (gravPhase (jumpStep k (hPhase k p))))).velY
      = JUMP_VELOCITY + GRAVITY := by
    rw [clampPhase_velY, movePhase_velY, gravPhase_velY, hj]
  have hneg : (clampPhase (movePhase (gravPhase (jumpStep k (hPhase k p))))).velY < 0 := by
    rw [hvelY]
    norm_num [JUMP_VELOCITY, GRAVITY]
  have hcol : preFloor k plats p
      = { clampPhase (movePhase (gravPhase (jumpStep k (hPhase k p)))) with onGround := false } := by
    unfold preFloor
    exact collidePhase_of_velY_neg _ _ hneg
  have hyq : (preFloor k plats p).y = p.y + (JUMP_VELOCITY + GRAVITY) := by
    rw [hcol]
    show (clampPhase (movePhase (gravPhase (jumpStep k (hPhase k p))))).y = _
    rw [clampPhase_y, movePhase_y, gravPhase_y, gravPhase_velY, hj]
    rfl
  have hle : ¬ ((preFloor k plats p).y + PLAYER_HEIGHT > ch) := by
    rw [not_lt, hyq]
    unfold JUMP_VELOCITY GRAVITY
    unfold PLAYER_HEIGHT at hy ⊢
    linarith
  have hfl : floorPhase ch (preFloor k plats p) = preFloor k plats p := by
    unfold floorPhase
    rw [if_neg hle]
  constructor
  · unfold playerUpdate
    rw [animPhase_velY, hfl, hcol]
    exact hvelY
  · unfold playerUpdate
    rw [animPhase_onGround, hfl, hcol]

/-- Witness for the amended C1 at a concrete standing player. -/
theorem jump_applies_jump_velocity_then_gravity_witness :
    upKeys.up = true ∧ samplePlayer.onGround = true
    ∧ samplePlayer.y + PLAYER_HEIGHT ≤ 480
    ∧ ((playerUpdate upKeys 0 [] 480 samplePlayer).velY = JUMP_VELOCITY + GRAVITY
       ∧ (playerUpdate upKeys 0 [] 480 samplePlayer).onGround = false) :=
  ⟨rfl, rfl, by norm_num [samplePlayer, PLAYER_HEIGHT],
   jump_applies_jump_velocity_then_gravity upKeys 0 [] 480 samplePlayer rfl rfl
     (by norm_num [samplePlayer, PLAYER_HEIGHT])⟩

/-- C6: after every tick `y + PLAYER_HEIGHT ≤ ch`, and whenever the state
entering the floor safety net exceeds the bound, the net forces
`y = ch - PLAYER_HEIGHT`, `velY = 0`, `onGround = true`. -/
theorem floor_safety_net_invariant (k : Keys) (dt : ℚ) (plats : List Rect) (ch : ℚ)
    (p : PlayerState) :
    (playerUpdate k dt plats ch p).y + PLAYER_HEIGHT ≤ ch
    ∧ ((preFloor k plats p).y + PLAYER_HEIGHT > ch →
        (playerUpdate k dt plats ch p).y = ch - PLAYER_HEIGHT
        ∧ (playerUpdate k dt plats ch p).velY = 0
        ∧ (playerUpdate k dt plats ch p).onGround = true) := by
  unfold playerUpdate floorPhase
  split_ifs with hc
  · constructor
    · rw [animPhase_y]
      show ch - PLAYER_HEIGHT + PLAYER_HEIGHT ≤ ch
      linarith
    · intro _
      exact ⟨by rw [animPhase_y], by rw [animPhase_velY], by rw [animPhase_onGround]⟩
  · constructor
    · rw [animPhase_y]
      exact le_of_not_lt hc
    · intro hgt
      exact absurd hgt hc

/-- Witness for C6: a player far below the floor triggers the safety net. -/
theorem floor_safety_net_invariant_witness :
    (preFloor noKeys [] sampleDeepPlayer).y + PLAYER_HEIGHT > 480
    ∧ ((playerUpdate noKeys 0 [] 480 sampleDeepPlayer).y = 480 - PLAYER_HEIGHT
       ∧ (playerUpdate noKeys 0 [] 480 sampleDeepPlayer).velY = 0
       ∧ (playerUpdate noKeys 0 [] 480 sampleDeepPlayer).onGround = true) := by
  have hpre : (preFloor noKeys [] sampleDeepPlayer).y + PLAYER_HEIGHT > 480 := by
    norm_num [preFloor, collidePhase, List.foldl, clampPhase, movePhase, gravPhase,
      jumpStep, hPhase, horizontalStep, frictionStep, sampleDeepPlayer, noKeys, clampX,
      GRAVITY, FRICTION, MAX_VEL_X, JUMP_VELOCITY, PLAYER_WIDTH, PLAYER_HEIGHT, WORLD_WIDTH]
  exact ⟨hpre, (floor_safety_net_invariant noKeys 0 [] 480 sampleDeepPlayer).2 hpre⟩

/-- Along any run from tick index `n`, collected flags persist and the
score never decreases. -/
lemma runFrom_coin_monotonic (cw ch : ℚ) (rand : ℕ → ℕ → ℚ) :
    ∀ (inputs : List (ℚ × Keys)) (n : ℕ) (s : GameState),
      (∀ i, collectedAt s i → collectedAt (runFrom cw ch rand n inputs s) i)
      ∧ s.score ≤ (runFrom cw ch rand n inputs s).score := by
  intro inputs
  induction inputs with
  | nil => intro n s; exact ⟨fun _ h => h, le_refl _⟩
  | cons a rest ih =>
    intro n s
    obtain ⟨dt, k⟩ := a
    constructor
    · intro i h
      exact (ih (n + 1) (update cw ch (rand n) k dt s)).1 i
        (update_collected cw ch (rand n) k dt s i h)
    · exact le_trans (update_score_le cw ch (rand n) k dt s)
        (ih (n + 1) (update cw ch (rand n) k dt s)).2

/-- C7: along every run of the step relation, once a coin's `collected`
flag is true it stays true on all subsequent ticks, and the score counter
never decreases. -/
theorem coin_collection_monotonic (cw ch : ℚ) (rand : ℕ → ℕ → ℚ)
    (inputs : List (ℚ × Keys)) (s : GameState) :
    (∀ i, collectedAt s i → collectedAt (run cw ch rand inputs s) i)
    ∧ s.score ≤ (run cw ch rand inputs s).score :=
  runFrom_coin_monotonic cw ch rand inputs 0 s

/-- Witness for C7: a collected coin stays collected across a concrete
tick. -/
theorem coin_collection_monotonic_witness :
    collectedAt sampleState 0
    ∧ collectedAt (run 800 480 (fun _ _ => 0) [(0, noKeys)] sampleState) 0
    ∧ sampleState.score ≤ (run 800 480 (fun _ _ => 0) [(0, noKeys)] sampleState).score :=
  ⟨⟨⟨120, 350, true⟩, rfl, rfl⟩,
   (coin_collection_monotonic 800 480 (fun _ _ => 0) [(0, noKeys)] sampleState).1 0
     ⟨⟨120, 350, true⟩, rfl, rfl⟩,
   (coin_collection_monotonic 800 480 (fun _ _ => 0) [(0, noKeys)] sampleState).2⟩

/-- C8: under a no-intent tick, `velX` becomes exactly `frictionStep velX`:
its magnitude shrinks by the factor `FRICTION`, its sign never flips, and
it is exactly 0 precisely when the post-friction magnitude falls below
0.1 — so it becomes 0 on the first such tick and stays 0. -/
theorem friction_decay_no_sign_flip (k : Keys) (dt : ℚ) (plats : List Rect) (ch : ℚ)
    (p : PlayerState) (hl : k.left = false) (hr : k.right = false) :
    (playerUpdate k dt plats ch p).velX = frictionStep p.velX
    ∧ (0 ≤ p.velX → 0 ≤ frictionStep p.velX)
    ∧ (p.velX ≤ 0 → frictionStep p.velX ≤ 0)
    ∧ |frictionStep p.velX| ≤ FRICTION * |p.velX|
    ∧ (frictionStep p.velX = 0 ↔ |p.velX * FRICTION| < 1/10) := by
  refine ⟨?_, ?_, ?_, ?_, ?_⟩
  · rw [playerUpdate_velX]
    unfold horizontalStep
    simp [hl, hr]
  · intro h
    unfold frictionStep
    split_ifs
    · exact le_refl 0
    · exact mul_nonneg h (by norm_num [FRICTION])
  · intro h
    unfold frictionStep
    split_ifs
    · exact le_refl 0
    · exact mul_nonpos_iff.mpr (Or.inr ⟨h, by norm_num [FRICTION]⟩)
  · unfold frictionStep
    split_ifs
    · rw [abs_zero]
      exact mul_nonneg (by norm_num [FRICTION]) (abs_nonneg p.velX)
    · rw [abs_mul]
      rw [show |FRICTION| = FRICTION by norm_num [FRICTION]]
      linarith [abs_nonneg p.velX]
  · unfold frictionStep
    split_ifs with hsn
    · exact ⟨fun _ => hsn, fun _ => rfl⟩
    · constructor
      · intro he
        rw [he] at hsn
        exact absurd (by norm_num : |(0:ℚ)| < 1/10) hsn
      · intro hlt
        exact absurd hlt hsn

/-- Witness for C8 at a concrete moving player with no intent held. -/
theorem friction_decay_no_sign_flip_witness :
    noKeys.left = false ∧ noKeys.right = false
    ∧ ((playerUpdate noKeys 0 [] 480 samplePlayer).velX = frictionStep samplePlayer.velX
       ∧ (0 ≤ samplePlayer.velX → 0 ≤ frictionStep samplePlayer.velX)
       ∧ (samplePlayer.velX ≤ 0 → frictionStep samplePlayer.velX ≤ 0)
       ∧ |frictionStep samplePlayer.velX| ≤ FRICTION * |samplePlayer.velX|
       ∧ (frictionStep samplePlayer.velX = 0 ↔ |samplePlayer.velX * FRICTION| < 1/10)) :=
  ⟨rfl, rfl, friction_decay_no_sign_flip noKeys 0 [] 480 samplePlayer rfl rfl⟩

/-- C2 counterexample: two runs over the same `(dt, intent)` sequence from
the same initial state give different states, because `update` consults
`Math.random()` when a cloud wraps — the per-tick update does contain
hidden randomness. -/
theorem update_depends_on_random_counterexample :
    run 800 480 (fun _ _ => 0) [(0, noKeys)] sampleState
      ≠ run 800 480 (fun _ _ => 1) [(0, noKeys)] sampleState := by
  intro heq
  have h1 : (run 800 480 (fun _ _ => 0) [(0, noKeys)] sampleState).clouds
      = [⟨-150, 0, 1⟩] := by
    norm_num [run, runFrom, update, cloudsPhase, List.mapIdx, List.mapIdx.go, cloudStep,
      sampleState]
  have h2 : (run 800 480 (fun _ _ => 1) [(0, noKeys)] sampleState).clouds
      = [⟨-150, 192, 1⟩] := by
    norm_num [run, runFrom, update, cloudsPhase, List.mapIdx, List.mapIdx.go, cloudStep,
      sampleState]
  rw [heq, h2] at h1
  norm_num [Cloud.mk.injEq] at h1

/-- C2 (amended): the simulation core — player, camera, coins, score — is
deterministic: for a fixed initial state and identical `(dt, intent)`
sequences, the core state sequence is identical whatever the random
oracles; only the decorative cloud positions depend on `Math.random()`. -/
theorem core_run_deterministic (cw ch : ℚ) (r1 r2 : ℕ → ℕ → ℚ)
    (inputs : List (ℚ × Keys)) (s : GameState) :
    coreOf (run cw ch r1 inputs s) = coreOf (run cw ch r2 inputs s) := by
  have key : ∀ (inputs : List (ℚ × Keys)) (n1 n2 : ℕ) (s1 s2 : GameState),
      coreOf s1 = coreOf s2 →
      coreOf (runFrom cw ch r1 n1 inputs s1) = coreOf (runFrom cw ch r2 n2 inputs s2) := by
    intro inputs
    induction inputs with
    | nil => intro n1 n2 s1 s2 h; exact h
    | cons a rest ih =>
      intro n1 n2 s1 s2 h
      obtain ⟨dt, k⟩ := a
      exact ih (n1 + 1) (n2 + 1) _ _
        (update_coreOf_eq cw ch (r1 n1) (r2 n2) k dt s1 s2 h)
  exact key inputs 0 0 s s rfl

end Platformer
